import Mathlib

/-!
Verification of `src/load_xml_data.py` (`load_ohiot1dm_xml`), the loader that
turns an OhioT1DM XML document into six per-category tables.

Shallow embedding notes:
* The XML document is modelled at the depth the loader inspects it: a root
  with named child sections, each section with named child elements carrying
  string attributes.  `ElementTree.find` is first-matching-child lookup and
  `findall('event')` filters children with tag `event`, in document order.
* Python `float(text)` is modelled by `pyFloat : String → Option ℚ`, parsing
  the decimal-literal fragment of Python's float grammar (optional sign,
  digits with optional fractional part and optional exponent, surrounding
  whitespace stripped) into an exact rational.  The claims under scrutiny
  concern exactly representable decimal values, where the rational model and
  IEEE doubles agree on round-tripping.
* `pandas.to_datetime(col, format='%d-%m-%Y %H:%M:%S')` is modelled by
  `parseTimestamp`, a strict day-month-year hour:minute:second parser with
  calendar validation; `None` entries pass through as `NaT`, modelled by
  `Option Timestamp` with `none` for `NaT`.
* Python exceptions abort the whole call, modelled with `Except PyError`:
  `float(None)` raises `TypeError`, `float(badText)` raises `ValueError`,
  a timestamp-format mismatch raises a (pandas) `ValueError`, distinguished
  here as `timestampError` for specification purposes.
-/

/-- A leaf element (an `event`): a tag plus string attributes.
`Element.get` models `xml.etree` attribute lookup, returning `None` when the
attribute is absent. -/
structure XmlEvent where
  tag : String
  attrib : List (String × String)
deriving DecidableEq, Repr

def XmlEvent.get (e : XmlEvent) (key : String) : Option String :=
  (e.attrib.find? (fun p => p.1 = key)).map Prod.snd

/-- A section element: a named child of the root containing event elements. -/
structure XmlSection where
  tag : String
  children : List XmlEvent
deriving DecidableEq, Repr

/-- `sec.findall('event')`: the child elements with tag `event`, in document
order. -/
def XmlSection.findall (sec : XmlSection) (name : String) : List XmlEvent :=
  sec.children.filter (fun e => e.tag = name)

/-- The document root: an ordered list of child sections. -/
structure XmlRoot where
  children : List XmlSection
deriving DecidableEq, Repr

/-- `root.find(name)`: the first direct child whose tag matches, or `None`. -/
def XmlRoot.find (root : XmlRoot) (name : String) : Option XmlSection :=
  root.children.find? (fun s => s.tag = name)

/-- The Python exceptions the loader can raise. -/
inductive PyError where
  /-- `float(None)`: attribute absent, so `event.get` returned `None`. -/
  | typeError : PyError
  /-- `float(text)` on text that is not a numeric literal. -/
  | valueError : PyError
  /-- `pandas.to_datetime` on text not matching the fixed format. -/
  | timestampError : PyError
deriving DecidableEq, Repr

instance {ε α : Type} [DecidableEq ε] [DecidableEq α] : DecidableEq (Except ε α) :=
  fun a b =>
    match a, b with
    | .ok x, .ok y => decidable_of_iff (x = y) (by simp)
    | .error x, .error y => decidable_of_iff (x = y) (by simp)
    | .ok _, .error _ => isFalse (by simp)
    | .error _, .ok _ => isFalse (by simp)

/-- Left-to-right effectful map over a list in the `Except` monad: the model
of the per-event extraction loops and of the column-wise timestamp
conversion, both of which abort at the first failing element. -/
def exceptMap {α β : Type} (f : α → Except PyError β) : List α → Except PyError (List β)
  | [] => .ok []
  | x :: xs => do
    let y ← f x
    let ys ← exceptMap f xs
    .ok (y :: ys)

/-! ### Numeric parsing: the model of Python `float(text)` -/

def digitsToNat (ds : List Char) : ℕ :=
  ds.foldl (fun n c => 10 * n + (c.toNat - 48)) 0

/-- Parse the decimal-literal fragment of Python's float grammar from a
character list: optional sign, then digits with an optional fractional part
(at least one digit overall) and an optional exponent.  The value
`sign · (intPart.fracPart) · 10^exponent` is assembled as a single exact
fraction via `mkRat`. -/
def pyFloatCore (cs : List Char) : Option ℚ :=
  let (sign, cs1) : ℤ × List Char :=
    match cs with
    | '+' :: r => (1, r)
    | '-' :: r => (-1, r)
    | r => (1, r)
  let (ip, cs2) := cs1.span Char.isDigit
  let (fp, cs3) :=
    match cs2 with
    | '.' :: r => r.span Char.isDigit
    | r => ([], r)
  if ip.isEmpty && fp.isEmpty then none
  else
    let mantNum : ℤ := sign * ((digitsToNat ip * 10 ^ fp.length + digitsToNat fp : ℕ) : ℤ)
    let mantDen : ℕ := 10 ^ fp.length
    match cs3 with
    | [] => some (mkRat mantNum mantDen)
    | c :: r =>
      if c = 'e' ∨ c = 'E' then
        let (eneg, r1) : Bool × List Char :=
          match r with
          | '+' :: r2 => (false, r2)
          | '-' :: r2 => (true, r2)
          | r2 => (false, r2)
        let (ed, r3) := r1.span Char.isDigit
        if ed.isEmpty || !r3.isEmpty then none
        else
          let e := digitsToNat ed
          if eneg then some (mkRat mantNum (mantDen * 10 ^ e))
          else some (mkRat (mantNum * 10 ^ e) mantDen)
      else none

/-- Python `float(text)` on finite decimal literals, as an exact rational;
`none` models a raised `ValueError`.  Surrounding whitespace is stripped, as
`float` does. -/
def pyFloat (s : String) : Option ℚ :=
  pyFloatCore (((s.toList.dropWhile Char.isWhitespace).reverse.dropWhile
    Char.isWhitespace).reverse)

/-- The evaluation of `float(event.get(key))`: a missing attribute gives
`float(None)`, a `TypeError`; unparseable text gives a `ValueError`. -/
def pyFloatAttr (e : XmlEvent) (key : String) : Except PyError ℚ :=
  match e.get key with
  | none => .error .typeError
  | some s =>
    match pyFloat s with
    | none => .error .valueError
    | some q => .ok q

/-! ### Timestamp parsing: the model of
`pandas.to_datetime(·, format='%d-%m-%Y %H:%M:%S')` on one text value -/

/-- A parsed chronological value (naive local time). -/
structure Timestamp where
  year : ℕ
  month : ℕ
  day : ℕ
  hour : ℕ
  minute : ℕ
  second : ℕ
deriving DecidableEq, Repr

def isLeapYear (y : ℕ) : Bool :=
  (y % 4 = 0 && y % 100 ≠ 0) || (y % 400 = 0)

def daysInMonth (y m : ℕ) : ℕ :=
  if m = 2 then (if isLeapYear y then 29 else 28)
  else if m = 4 ∨ m = 6 ∨ m = 9 ∨ m = 11 then 30
  else 31

def expectChar (c : Char) : List Char → Option (List Char)
  | x :: r => if x = c then some r else none
  | [] => none

/-- Strict parse of the fixed format `%d-%m-%Y %H:%M:%S` (strptime-style:
day/month/hour/minute/second take one or two digits, the year up to four),
with calendar validation as performed when the datetime value is built.
`none` models the raised format/value error. -/
def parseTimestamp (s : String) : Option Timestamp := do
  let cs0 := s.toList
  let (d, cs1) := cs0.span Char.isDigit
  if d.length = 0 ∨ 2 < d.length then none else do
  let cs2 ← expectChar '-' cs1
  let (mo, cs3) := cs2.span Char.isDigit
  if mo.length = 0 ∨ 2 < mo.length then none else do
  let cs4 ← expectChar '-' cs3
  let (y, cs5) := cs4.span Char.isDigit
  if y.length = 0 ∨ 4 < y.length then none else do
  let cs6 ← expectChar ' ' cs5
  let (h, cs7) := cs6.span Char.isDigit
  if h.length = 0 ∨ 2 < h.length then none else do
  let cs8 ← expectChar ':' cs7
  let (mi, cs9) := cs8.span Char.isDigit
  if mi.length = 0 ∨ 2 < mi.length then none else do
  let cs10 ← expectChar ':' cs9
  let (se, cs11) := cs10.span Char.isDigit
  if se.length = 0 ∨ 2 < se.length then none else do
  if !cs11.isEmpty then none else
  let year := digitsToNat y
  let month := digitsToNat mo
  let day := digitsToNat d
  let hour := digitsToNat h
  let minute := digitsToNat mi
  let second := digitsToNat se
  if 1 ≤ year ∧ 1 ≤ month ∧ month ≤ 12 ∧ 1 ≤ day ∧ day ≤ daysInMonth year month
      ∧ hour ≤ 23 ∧ minute ≤ 59 ∧ second ≤ 59 then
    some ⟨year, month, day, hour, minute, second⟩
  else none

/-- One cell of the column-wise timestamp conversion: pandas maps `None`
through as `NaT` (here `none`) and raises on text that does not match the
format. -/
def convertTs : Option String → Except PyError (Option Timestamp)
  | none => .ok none
  | some s =>
    match parseTimestamp s with
    | none => .error .timestampError
    | some t => .ok (some t)

/-! ### Per-category rows, extraction, and conversion -/

/-- Raw row of the `glucose_level` / `basal` / `basis_steps` loops:
`{'timestamp': event.get('ts'), 'value': float(event.get('value'))}`. -/
structure TsValRaw where
  timestamp : Option String
  value : ℚ
deriving DecidableEq, Repr

/-- The same row after the `to_datetime` column conversion. -/
structure TsValRow where
  timestamp : Option Timestamp
  value : ℚ
deriving DecidableEq, Repr

/-- Raw row of the `temp_basal` loop. -/
structure TempBasalRaw where
  ts_begin : Option String
  ts_end : Option String
  value : ℚ
deriving DecidableEq, Repr

structure TempBasalRow where
  ts_begin : Option Timestamp
  ts_end : Option Timestamp
  value : ℚ
deriving DecidableEq, Repr

/-- Raw row of the `bolus` loop. -/
structure BolusRaw where
  ts_begin : Option String
  ts_end : Option String
  type : Option String
  dose : ℚ
  bwz_carb_input : ℚ
deriving DecidableEq, Repr

structure BolusRow where
  ts_begin : Option Timestamp
  ts_end : Option Timestamp
  type : Option String
  dose : ℚ
  bwz_carb_input : ℚ
deriving DecidableEq, Repr

/-- Raw row of the `meal` loop. -/
structure MealRaw where
  timestamp : Option String
  type : Option String
  carbs : ℚ
deriving DecidableEq, Repr

structure MealRow where
  timestamp : Option Timestamp
  type : Option String
  carbs : ℚ
deriving DecidableEq, Repr

def extractTsValRow (e : XmlEvent) : Except PyError TsValRaw := do
  let v ← pyFloatAttr e "value"
  .ok { timestamp := e.get "ts", value := v }

def extractTempBasalRow (e : XmlEvent) : Except PyError TempBasalRaw := do
  let v ← pyFloatAttr e "value"
  .ok { ts_begin := e.get "ts_begin", ts_end := e.get "ts_end", value := v }

def extractBolusRow (e : XmlEvent) : Except PyError BolusRaw := do
  let d ← pyFloatAttr e "dose"
  let c ← pyFloatAttr e "bwz_carb_input"
  .ok { ts_begin := e.get "ts_begin", ts_end := e.get "ts_end",
        type := e.get "type", dose := d, bwz_carb_input := c }

def extractMealRow (e : XmlEvent) : Except PyError MealRaw := do
  let c ← pyFloatAttr e "carbs"
  .ok { timestamp := e.get "ts", type := e.get "type", carbs := c }

/-- The shared shape of the `glucose_level`, `basal` and `basis_steps`
extraction blocks: locate the section, and if present loop over its `event`
children appending `{timestamp, value}` rows. -/
def extractTsValData (root : XmlRoot) (secName : String) :
    Except PyError (List TsValRaw) :=
  match root.find secName with
  | none => .ok []
  | some sec => exceptMap extractTsValRow (sec.findall "event")

def extractTempBasalData (root : XmlRoot) : Except PyError (List TempBasalRaw) :=
  match root.find "temp_basal" with
  | none => .ok []
  | some sec => exceptMap extractTempBasalRow (sec.findall "event")

def extractBolusData (root : XmlRoot) : Except PyError (List BolusRaw) :=
  match root.find "bolus" with
  | none => .ok []
  | some sec => exceptMap extractBolusRow (sec.findall "event")

def extractMealData (root : XmlRoot) : Except PyError (List MealRaw) :=
  match root.find "meal" with
  | none => .ok []
  | some sec => exceptMap extractMealRow (sec.findall "event")

def convertTsValRow (r : TsValRaw) : Except PyError TsValRow := do
  let t ← convertTs r.timestamp
  .ok { timestamp := t, value := r.value }

def convertTempBasalRow (r : TempBasalRaw) : Except PyError TempBasalRow := do
  let b ← convertTs r.ts_begin
  let e ← convertTs r.ts_end
  .ok { ts_begin := b, ts_end := e, value := r.value }

def convertBolusRow (r : BolusRaw) : Except PyError BolusRow := do
  let b ← convertTs r.ts_begin
  let e ← convertTs r.ts_end
  .ok { ts_begin := b, ts_end := e, type := r.type, dose := r.dose,
        bwz_carb_input := r.bwz_carb_input }

def convertMealRow (r : MealRaw) : Except PyError MealRow := do
  let t ← convertTs r.timestamp
  .ok { timestamp := t, type := r.type, carbs := r.carbs }

/-- `if not df.empty: df[col] = pd.to_datetime(df[col], format=...)`, for the
`{timestamp, value}` tables. -/
def convertTsValTable (rows : List TsValRaw) : Except PyError (List TsValRow) :=
  if rows.isEmpty then .ok []
  else exceptMap convertTsValRow rows

def convertTempBasalTable (rows : List TempBasalRaw) :
    Except PyError (List TempBasalRow) :=
  if rows.isEmpty then .ok []
  else exceptMap convertTempBasalRow rows

def convertBolusTable (rows : List BolusRaw) : Except PyError (List BolusRow) :=
  if rows.isEmpty then .ok []
  else exceptMap convertBolusRow rows

def convertMealTable (rows : List MealRaw) : Except PyError (List MealRow) :=
  if rows.isEmpty then .ok []
  else exceptMap convertMealRow rows

/-- One of the six returned dataframes (the category fixes the column set). -/
inductive TableVal where
  | tsval (rows : List TsValRow) : TableVal
  | tempb (rows : List TempBasalRow) : TableVal
  | bolusT (rows : List BolusRow) : TableVal
  | mealT (rows : List MealRow) : TableVal
deriving DecidableEq, Repr

def TableVal.rowCount : TableVal → ℕ
  | .tsval rows => rows.length
  | .tempb rows => rows.length
  | .bolusT rows => rows.length
  | .mealT rows => rows.length

/-- `load_ohiot1dm_xml`, after the document has been parsed into `root`:
six extraction loops in source order, dataframe construction, the six
empty-guarded timestamp conversions, and the returned dict (modelled as an
ordered key-table association list, preserving the literal dict keys). -/
def load (root : XmlRoot) : Except PyError (List (String × TableVal)) := do
  let glucose_data ← extractTsValData root "glucose_level"
  let basal_data ← extractTsValData root "basal"
  let tempbasal_data ← extractTempBasalData root
  let bolus_data ← extractBolusData root
  let meal_data ← extractMealData root
  let step_data ← extractTsValData root "basis_steps"
  let df_glucose ← convertTsValTable glucose_data
  let df_basal ← convertTsValTable basal_data
  let df_tempbasal ← convertTempBasalTable tempbasal_data
  let df_bolus ← convertBolusTable bolus_data
  let df_meal ← convertMealTable meal_data
  let df_step ← convertTsValTable step_data
  .ok [("glucose_level", .tsval df_glucose),
       ("basal", .tsval df_basal),
       ("tempbasal", .tempb df_tempbasal),
       ("bolus", .bolusT df_bolus),
       ("meal", .mealT df_meal),
       ("step", .tsval df_step)]

/-- The literal key list of the dict returned by `load_ohiot1dm_xml`. -/
def loadKeys : List String :=
  ["glucose_level", "basal", "tempbasal", "bolus", "meal", "step"]

/-- The six section names the loader looks up in the document. -/
def loadSectionNames : List String :=
  ["glucose_level", "basal", "temp_basal", "bolus", "meal", "basis_steps"]

/-- Section name ↦ key under which its table is returned. -/
def sectionKeyPairs : List (String × String) :=
  [("glucose_level", "glucose_level"), ("basal", "basal"),
   ("temp_basal", "tempbasal"), ("bolus", "bolus"), ("meal", "meal"),
   ("basis_steps", "step")]

/-- Section name and attribute name of every numeric field in the schema. -/
def numericSchema : List (String × String) :=
  [("glucose_level", "value"), ("basal", "value"), ("temp_basal", "value"),
   ("bolus", "dose"), ("bolus", "bwz_carb_input"), ("meal", "carbs"),
   ("basis_steps", "value")]

/-- Section name and attribute name of every timestamp field in the schema. -/
def timestampSchema : List (String × String) :=
  [("glucose_level", "ts"), ("basal", "ts"), ("temp_basal", "ts_begin"),
   ("temp_basal", "ts_end"), ("bolus", "ts_begin"), ("bolus", "ts_end"),
   ("meal", "ts"), ("basis_steps", "ts")]

/-- The number of `event` elements under `cname`, 0 when the section is
absent. -/
def sectionEventCount (root : XmlRoot) (cname : String) : ℕ :=
  match root.find cname with
  | none => 0
  | some sec => (sec.findall "event").length

/-- The per-category statement "the extraction step produced the empty row
list": which extraction function is involved depends on the category. -/
def extractionEmptyOk (root : XmlRoot) : String → Prop
  | "temp_basal" => extractTempBasalData root = .ok []
  | "bolus" => extractBolusData root = .ok []
  | "meal" => extractMealData root = .ok []
  | c => extractTsValData root c = .ok []

/-- The key list §3 of the spec claims for the output mapping (it differs
from the dict keys the code actually uses for `temp_basal` and
`basis_steps` data). -/
def specClaimedKeys : List String :=
  ["glucose_level", "basal", "temp_basal", "bolus", "meal", "basis_steps"]

/-! ### Concrete documents and expected outputs used in closed statements -/

def emptyRoot : XmlRoot := ⟨[]⟩

def emptyOut : List (String × TableVal) :=
  [("glucose_level", .tsval []), ("basal", .tsval []), ("tempbasal", .tempb []),
   ("bolus", .bolusT []), ("meal", .mealT []), ("step", .tsval [])]

/-- A glucose event carrying `value` but no `ts` attribute. -/
def noTsEvent : XmlEvent := ⟨"event", [("value", "120.0")]⟩

def noTsRoot : XmlRoot := ⟨[⟨"glucose_level", [noTsEvent]⟩]⟩

def noTsOut : List (String × TableVal) :=
  [("glucose_level", .tsval [⟨none, 120⟩]), ("basal", .tsval []),
   ("tempbasal", .tempb []), ("bolus", .bolusT []), ("meal", .mealT []),
   ("step", .tsval [])]

/-- A glucose event carrying `ts` but no `value` attribute. -/
def noValueEvent : XmlEvent := ⟨"event", [("ts", "01-01-2021 00:00:00")]⟩

def noValueRoot : XmlRoot := ⟨[⟨"glucose_level", [noValueEvent]⟩]⟩

def glucoseEvent : XmlEvent :=
  ⟨"event", [("ts", "02-12-2021 06:14:00"), ("value", "150.0")]⟩

def glucoseRoot : XmlRoot := ⟨[⟨"glucose_level", [glucoseEvent]⟩]⟩

def glucoseOut : List (String × TableVal) :=
  [("glucose_level", .tsval [⟨some ⟨2021, 12, 2, 6, 14, 0⟩, 150⟩]),
   ("basal", .tsval []), ("tempbasal", .tempb []), ("bolus", .bolusT []),
   ("meal", .mealT []), ("step", .tsval [])]

def mealEventA : XmlEvent :=
  ⟨"event", [("ts", "01-01-2021 08:00:00"), ("type", "Breakfast"), ("carbs", "45.0")]⟩

def mealEventB : XmlEvent :=
  ⟨"event", [("ts", "01-01-2021 12:30:00"), ("type", "Lunch"), ("carbs", "60.0")]⟩

def mealEventC : XmlEvent :=
  ⟨"event", [("ts", "01-01-2021 19:00:00"), ("type", "Dinner"), ("carbs", "75.5")]⟩

def mealSecA : XmlSection := ⟨"meal", [mealEventA]⟩

def mealSecB : XmlSection := ⟨"meal", [mealEventB]⟩

def meal3Sec : XmlSection := ⟨"meal", [mealEventA, mealEventB, mealEventC]⟩

def meal3Root : XmlRoot := ⟨[meal3Sec]⟩

def meal3Rows : List MealRow :=
  [⟨some ⟨2021, 1, 1, 8, 0, 0⟩, some "Breakfast", 45⟩,
   ⟨some ⟨2021, 1, 1, 12, 30, 0⟩, some "Lunch", 60⟩,
   ⟨some ⟨2021, 1, 1, 19, 0, 0⟩, some "Dinner", mkRat 151 2⟩]

def meal3Out : List (String × TableVal) :=
  [("glucose_level", .tsval []), ("basal", .tsval []), ("tempbasal", .tempb []),
   ("bolus", .bolusT []), ("meal", .mealT meal3Rows), ("step", .tsval [])]

/-- Two sibling `meal` sections, each with a single, different event. -/
def dupMealRoot : XmlRoot := ⟨[mealSecA, mealSecB]⟩

/-- A meal event whose `carbs` text is not numeric. -/
def badCarbsEvent : XmlEvent :=
  ⟨"event", [("ts", "01-01-2021 12:00:00"), ("type", "Snack"), ("carbs", "abc")]⟩

/-- A well-formed glucose section next to a meal section that will fail
numeric coercion. -/
def mixedRoot : XmlRoot :=
  ⟨[⟨"glucose_level", [glucoseEvent]⟩, ⟨"meal", [badCarbsEvent]⟩]⟩

/-- A glucose event whose `ts` text does not match `%d-%m-%Y %H:%M:%S`. -/
def badTsEvent : XmlEvent :=
  ⟨"event", [("ts", "2021/12/02 06:14:00"), ("value", "150.0")]⟩

def badTsRoot : XmlRoot := ⟨[⟨"glucose_level", [badTsEvent]⟩]⟩

/-- A document whose `meal` section is present but has zero `event`
children. -/
def emptyMealRoot : XmlRoot := ⟨[⟨"meal", []⟩]⟩

example : load ⟨[]⟩ = .ok [("glucose_level", .tsval []), ("basal", .tsval []),
    ("tempbasal", .tempb []), ("bolus", .bolusT []), ("meal", .mealT []),
    ("step", .tsval [])] := by decide

example : pyFloat "150.0" = some 150 := by decide
example : pyFloat "5" = some 5 := by decide
example : pyFloat "abc" = none := by decide
example : parseTimestamp "02-12-2021 06:14:00" =
    some ⟨2021, 12, 2, 6, 14, 0⟩ := by decide
example : parseTimestamp "not-a-date" = none := by decide

/-! ### Helper lemmas: inversion of the monadic plumbing -/

theorem except_bind_ok_iff {ε α β : Type} (x : Except ε α) (f : α → Except ε β)
    (b : β) : (x >>= f = Except.ok b) ↔ ∃ a, x = .ok a ∧ f a = .ok b := by
  cases x <;> simp [Bind.bind, Except.bind]

theorem exceptMap_cons_ok_iff {α β : Type} (f : α → Except PyError β) (x : α)
    (xs : List α) (ys : List β) :
    exceptMap f (x :: xs) = .ok ys ↔
      ∃ y ys', f x = .ok y ∧ exceptMap f xs = .ok ys' ∧ ys = y :: ys' := by
  show (f x >>= fun y => exceptMap f xs >>= fun ys' => Except.ok (y :: ys')) = .ok ys ↔ _
  rw [except_bind_ok_iff]
  constructor
  · rintro ⟨y, hy, hrest⟩
    rw [except_bind_ok_iff] at hrest
    obtain ⟨ys', hys', heq⟩ := hrest
    exact ⟨y, ys', hy, hys', (Except.ok.injEq _ _).mp heq.symm⟩
  · rintro ⟨y, ys', hy, hys', rfl⟩
    exact ⟨y, hy, by rw [except_bind_ok_iff]; exact ⟨ys', hys', rfl⟩⟩

theorem exceptMap_ok_length {α β : Type} {f : α → Except PyError β} :
    ∀ {xs : List α} {ys : List β}, exceptMap f xs = .ok ys →
      ys.length = xs.length := by
  intro xs
  induction xs with
  | nil =>
    intro ys h
    simp only [exceptMap] at h
    cases h
    rfl
  | cons x xs ih =>
    intro ys h
    rw [exceptMap_cons_ok_iff] at h
    obtain ⟨y, ys', _, hys', rfl⟩ := h
    simp [ih hys']

theorem exceptMap_ok_get? {α β : Type} {f : α → Except PyError β} :
    ∀ {xs : List α} {ys : List β}, exceptMap f xs = .ok ys →
      ∀ i y, ys.get? i = some y → ∃ x, xs.get? i = some x ∧ f x = .ok y := by
  intro xs
  induction xs with
  | nil =>
    intro ys h i y hy
    simp only [exceptMap] at h
    cases h
    simp at hy
  | cons x xs ih =>
    intro ys h i y hy
    rw [exceptMap_cons_ok_iff] at h
    obtain ⟨y0, ys', hy0, hys', rfl⟩ := h
    cases i with
    | zero =>
      simp only [List.get?] at hy
      cases hy
      exact ⟨x, rfl, hy0⟩
    | succ i =>
      simp only [List.get?] at hy ⊢
      exact ih hys' i y hy

theorem exceptMap_ok_of_mem {α β : Type} {f : α → Except PyError β} :
    ∀ {xs : List α} {ys : List β}, exceptMap f xs = .ok ys →
      ∀ {x : α}, x ∈ xs → ∃ y, f x = .ok y := by
  intro xs
  induction xs with
  | nil =>
    intro ys _ x hx
    simp at hx
  | cons a xs ih =>
    intro ys h x hx
    rw [exceptMap_cons_ok_iff] at h
    obtain ⟨y0, ys', hy0, hys', rfl⟩ := h
    rcases List.mem_cons.mp hx with rfl | hx
    · exact ⟨y0, hy0⟩
    · exact ih hys' hx

theorem exceptMap_not_ok {α β : Type} {f : α → Except PyError β} {xs : List α}
    {x : α} (hx : x ∈ xs) (hf : ∀ y, f x ≠ .ok y) :
    ∀ ys, exceptMap f xs ≠ .ok ys := by
  intro ys h
  obtain ⟨y, hy⟩ := exceptMap_ok_of_mem h hx
  exact hf y hy

/-- Decomposition of a successful `load` call into its twelve sequential
steps and the literal shape of the returned mapping. -/
theorem load_ok_decomp {root : XmlRoot} {m : List (String × TableVal)}
    (h : load root = .ok m) :
    ∃ g b t bo me st dg db dt dbo dme dst,
      extractTsValData root "glucose_level" = .ok g ∧
      extractTsValData root "basal" = .ok b ∧
      extractTempBasalData root = .ok t ∧
      extractBolusData root = .ok bo ∧
      extractMealData root = .ok me ∧
      extractTsValData root "basis_steps" = .ok st ∧
      convertTsValTable g = .ok dg ∧
      convertTsValTable b = .ok db ∧
      convertTempBasalTable t = .ok dt ∧
      convertBolusTable bo = .ok dbo ∧
      convertMealTable me = .ok dme ∧
      convertTsValTable st = .ok dst ∧
      m = [("glucose_level", .tsval dg), ("basal", .tsval db),
           ("tempbasal", .tempb dt), ("bolus", .bolusT dbo),
           ("meal", .mealT dme), ("step", .tsval dst)] := by
  simp only [load] at h
  rw [except_bind_ok_iff] at h
  obtain ⟨g, hg, h⟩ := h
  rw [except_bind_ok_iff] at h
  obtain ⟨b, hb, h⟩ := h
  rw [except_bind_ok_iff] at h
  obtain ⟨t, ht, h⟩ := h
  rw [except_bind_ok_iff] at h
  obtain ⟨bo, hbo, h⟩ := h
  rw [except_bind_ok_iff] at h
  obtain ⟨me, hme, h⟩ := h
  rw [except_bind_ok_iff] at h
  obtain ⟨st, hst, h⟩ := h
  rw [except_bind_ok_iff] at h
  obtain ⟨dg, hdg, h⟩ := h
  rw [except_bind_ok_iff] at h
  obtain ⟨db, hdb, h⟩ := h
  rw [except_bind_ok_iff] at h
  obtain ⟨dt, hdt, h⟩ := h
  rw [except_bind_ok_iff] at h
  obtain ⟨dbo, hdbo, h⟩ := h
  rw [except_bind_ok_iff] at h
  obtain ⟨dme, hdme, h⟩ := h
  rw [except_bind_ok_iff] at h
  obtain ⟨dst, hdst, h⟩ := h
  refine ⟨g, b, t, bo, me, st, dg, db, dt, dbo, dme, dst,
    hg, hb, ht, hbo, hme, hst, hdg, hdb, hdt, hdbo, hdme, hdst, ?_⟩
  exact ((Except.ok.injEq _ _).mp h).symm

/-! ### Helper lemmas: the shapes shared by extraction and conversion -/

theorem convertShape_length {β γ : Type} {cv : β → Except PyError γ}
    {g : List β} {g' : List γ}
    (h : (if g.isEmpty then Except.ok [] else exceptMap cv g) = .ok g') :
    g'.length = g.length := by
  by_cases hg : g.isEmpty
  · rw [if_pos hg] at h
    cases h
    simp [List.isEmpty_iff.mp hg]
  · rw [if_neg hg] at h
    exact exceptMap_ok_length h

theorem convertShape_get? {β γ : Type} {cv : β → Except PyError γ}
    {g : List β} {g' : List γ}
    (h : (if g.isEmpty then Except.ok [] else exceptMap cv g) = .ok g') :
    ∀ i r, g'.get? i = some r → ∃ b, g.get? i = some b ∧ cv b = .ok r := by
  intro i r hr
  by_cases hg : g.isEmpty
  · rw [if_pos hg] at h
    cases h
    simp at hr
  · rw [if_neg hg] at h
    exact exceptMap_ok_get? h i r hr

theorem convertShape_not_ok {β γ : Type} {cv : β → Except PyError γ}
    {g : List β} {b : β} (hb : b ∈ g) (hcv : ∀ y, cv b ≠ .ok y) :
    ∀ g', (if g.isEmpty then Except.ok [] else exceptMap cv g) ≠ .ok g' := by
  intro g' h
  have hne : ¬ g.isEmpty := by
    cases g with
    | nil => simp at hb
    | cons a l => simp [List.isEmpty]
  rw [if_neg hne] at h
  exact exceptMap_not_ok hb hcv g' h

theorem pyFloatAttr_ok {e : XmlEvent} {key : String} {q : ℚ}
    (h : pyFloatAttr e key = .ok q) :
    ∃ s, e.get key = some s ∧ pyFloat s = some q := by
  unfold pyFloatAttr at h
  split at h
  · exact absurd h (by simp)
  · split at h
    · exact absurd h (by simp)
    · cases h
      next s hv _ hq => exact ⟨s, hv, hq⟩

theorem pyFloatAttr_none {e : XmlEvent} {key : String} (hv : e.get key = none) :
    pyFloatAttr e key = .error .typeError := by
  unfold pyFloatAttr
  rw [hv]

theorem pyFloatAttr_bad {e : XmlEvent} {key : String} {s : String}
    (hv : e.get key = some s) (hq : pyFloat s = none) :
    pyFloatAttr e key = .error .valueError := by
  unfold pyFloatAttr
  rw [hv]
  simp [hq]

theorem extractTsValRow_ok {e : XmlEvent} {raw : TsValRaw}
    (h : extractTsValRow e = .ok raw) :
    raw.timestamp = e.get "ts" ∧
      ∃ s, e.get "value" = some s ∧ pyFloat s = some raw.value := by
  unfold extractTsValRow at h
  rw [except_bind_ok_iff] at h
  obtain ⟨v, hv, h⟩ := h
  cases h
  exact ⟨rfl, pyFloatAttr_ok hv⟩

theorem extractTempBasalRow_ok {e : XmlEvent} {raw : TempBasalRaw}
    (h : extractTempBasalRow e = .ok raw) :
    raw.ts_begin = e.get "ts_begin" ∧ raw.ts_end = e.get "ts_end" ∧
      ∃ s, e.get "value" = some s ∧ pyFloat s = some raw.value := by
  unfold extractTempBasalRow at h
  rw [except_bind_ok_iff] at h
  obtain ⟨v, hv, h⟩ := h
  cases h
  exact ⟨rfl, rfl, pyFloatAttr_ok hv⟩

theorem extractBolusRow_ok {e : XmlEvent} {raw : BolusRaw}
    (h : extractBolusRow e = .ok raw) :
    raw.ts_begin = e.get "ts_begin" ∧ raw.ts_end = e.get "ts_end" ∧
      raw.type = e.get "type" ∧
      (∃ s, e.get "dose" = some s ∧ pyFloat s = some raw.dose) ∧
      (∃ s, e.get "bwz_carb_input" = some s ∧
        pyFloat s = some raw.bwz_carb_input) := by
  unfold extractBolusRow at h
  rw [except_bind_ok_iff] at h
  obtain ⟨d, hd, h⟩ := h
  rw [except_bind_ok_iff] at h
  obtain ⟨c, hc, h⟩ := h
  cases h
  exact ⟨rfl, rfl, rfl, pyFloatAttr_ok hd, pyFloatAttr_ok hc⟩

theorem extractMealRow_ok {e : XmlEvent} {raw : MealRaw}
    (h : extractMealRow e = .ok raw) :
    raw.timestamp = e.get "ts" ∧ raw.type = e.get "type" ∧
      ∃ s, e.get "carbs" = some s ∧ pyFloat s = some raw.carbs := by
  unfold extractMealRow at h
  rw [except_bind_ok_iff] at h
  obtain ⟨c, hc, h⟩ := h
  cases h
  exact ⟨rfl, rfl, pyFloatAttr_ok hc⟩

theorem convertTs_some_ok {s : String} {o : Option Timestamp}
    (h : convertTs (some s) = .ok o) : o = parseTimestamp s := by
  simp only [convertTs] at h
  split at h
  next hp => exact absurd h (by simp)
  next t hp => cases h; exact hp.symm

theorem convertTsValRow_ok {raw : TsValRaw} {r : TsValRow}
    (h : convertTsValRow raw = .ok r) :
    r.value = raw.value ∧ convertTs raw.timestamp = .ok r.timestamp := by
  unfold convertTsValRow at h
  rw [except_bind_ok_iff] at h
  obtain ⟨t, ht, h⟩ := h
  cases h
  exact ⟨rfl, ht⟩

theorem convertTempBasalRow_ok {raw : TempBasalRaw} {r : TempBasalRow}
    (h : convertTempBasalRow raw = .ok r) :
    r.value = raw.value ∧ convertTs raw.ts_begin = .ok r.ts_begin ∧
      convertTs raw.ts_end = .ok r.ts_end := by
  unfold convertTempBasalRow at h
  rw [except_bind_ok_iff] at h
  obtain ⟨tb, htb, h⟩ := h
  rw [except_bind_ok_iff] at h
  obtain ⟨te, hte, h⟩ := h
  cases h
  exact ⟨rfl, htb, hte⟩

theorem convertBolusRow_ok {raw : BolusRaw} {r : BolusRow}
    (h : convertBolusRow raw = .ok r) :
    r.dose = raw.dose ∧ r.bwz_carb_input = raw.bwz_carb_input ∧
      r.type = raw.type ∧ convertTs raw.ts_begin = .ok r.ts_begin ∧
      convertTs raw.ts_end = .ok r.ts_end := by
  unfold convertBolusRow at h
  rw [except_bind_ok_iff] at h
  obtain ⟨tb, htb, h⟩ := h
  rw [except_bind_ok_iff] at h
  obtain ⟨te, hte, h⟩ := h
  cases h
  exact ⟨rfl, rfl, rfl, htb, hte⟩

theorem convertMealRow_ok {raw : MealRaw} {r : MealRow}
    (h : convertMealRow raw = .ok r) :
    r.carbs = raw.carbs ∧ r.type = raw.type ∧
      convertTs raw.timestamp = .ok r.timestamp := by
  unfold convertMealRow at h
  rw [except_bind_ok_iff] at h
  obtain ⟨t, ht, h⟩ := h
  cases h
  exact ⟨rfl, rfl, ht⟩

theorem load_error_exists {root : XmlRoot}
    (hno : ∀ m, load root ≠ .ok m) : ∃ er, load root = .error er := by
  cases hl : load root with
  | error er => exact ⟨er, rfl⟩
  | ok m => exact absurd hl (hno m)

theorem exceptMap_ok_mem {α β : Type} {f : α → Except PyError β} :
    ∀ {xs : List α} {ys : List β}, exceptMap f xs = .ok ys →
      ∀ {x : α}, x ∈ xs → ∃ y, y ∈ ys ∧ f x = .ok y := by
  intro xs
  induction xs with
  | nil =>
    intro ys _ x hx
    simp at hx
  | cons a xs ih =>
    intro ys h x hx
    rw [exceptMap_cons_ok_iff] at h
    obtain ⟨y0, ys', hy0, hys', rfl⟩ := h
    rcases List.mem_cons.mp hx with rfl | hx
    · exact ⟨y0, List.mem_cons_self _ _, hy0⟩
    · obtain ⟨y, hmem, hy⟩ := ih hys' hx
      exact ⟨y, List.mem_cons_of_mem _ hmem, hy⟩

theorem pyFloatAttr_some {e : XmlEvent} {key s : String} {q : ℚ}
    (hv : e.get key = some s) (hq : pyFloat s = some q) :
    pyFloatAttr e key = .ok q := by
  unfold pyFloatAttr
  rw [hv]
  simp [hq]

theorem convertTs_some_bad {s : String} (hp : parseTimestamp s = none) :
    convertTs (some s) = .error .timestampError := by
  simp only [convertTs, hp]

theorem extractTsValData_of_absent {root : XmlRoot} {cname : String}
    (hf : root.find cname = none) : extractTsValData root cname = .ok [] := by
  unfold extractTsValData
  rw [hf]

theorem extractTsValData_of_find {root : XmlRoot} {cname : String}
    {sec : XmlSection} (hf : root.find cname = some sec) :
    extractTsValData root cname = exceptMap extractTsValRow (sec.findall "event") := by
  unfold extractTsValData
  rw [hf]

theorem extractTempBasalData_of_absent {root : XmlRoot}
    (hf : root.find "temp_basal" = none) : extractTempBasalData root = .ok [] := by
  unfold extractTempBasalData
  rw [hf]

theorem extractTempBasalData_of_find {root : XmlRoot} {sec : XmlSection}
    (hf : root.find "temp_basal" = some sec) :
    extractTempBasalData root = exceptMap extractTempBasalRow (sec.findall "event") := by
  unfold extractTempBasalData
  rw [hf]

theorem extractBolusData_of_absent {root : XmlRoot}
    (hf : root.find "bolus" = none) : extractBolusData root = .ok [] := by
  unfold extractBolusData
  rw [hf]

theorem extractBolusData_of_find {root : XmlRoot} {sec : XmlSection}
    (hf : root.find "bolus" = some sec) :
    extractBolusData root = exceptMap extractBolusRow (sec.findall "event") := by
  unfold extractBolusData
  rw [hf]

theorem extractMealData_of_absent {root : XmlRoot}
    (hf : root.find "meal" = none) : extractMealData root = .ok [] := by
  unfold extractMealData
  rw [hf]

theorem extractMealData_of_find {root : XmlRoot} {sec : XmlSection}
    (hf : root.find "meal" = some sec) :
    extractMealData root = exceptMap extractMealRow (sec.findall "event") := by
  unfold extractMealData
  rw [hf]

theorem extractTsValData_length {root : XmlRoot} {cname : String}
    {g : List TsValRaw} (h : extractTsValData root cname = .ok g) :
    g.length = sectionEventCount root cname := by
  cases hf : root.find cname with
  | none =>
    rw [extractTsValData_of_absent hf] at h
    cases h
    simp [sectionEventCount, hf]
  | some sec =>
    rw [extractTsValData_of_find hf] at h
    rw [exceptMap_ok_length h]
    simp [sectionEventCount, hf]

theorem extractTempBasalData_length {root : XmlRoot} {g : List TempBasalRaw}
    (h : extractTempBasalData root = .ok g) :
    g.length = sectionEventCount root "temp_basal" := by
  cases hf : root.find "temp_basal" with
  | none =>
    rw [extractTempBasalData_of_absent hf] at h
    cases h
    simp [sectionEventCount, hf]
  | some sec =>
    rw [extractTempBasalData_of_find hf] at h
    rw [exceptMap_ok_length h]
    simp [sectionEventCount, hf]

theorem extractBolusData_length {root : XmlRoot} {g : List BolusRaw}
    (h : extractBolusData root = .ok g) :
    g.length = sectionEventCount root "bolus" := by
  cases hf : root.find "bolus" with
  | none =>
    rw [extractBolusData_of_absent hf] at h
    cases h
    simp [sectionEventCount, hf]
  | some sec =>
    rw [extractBolusData_of_find hf] at h
    rw [exceptMap_ok_length h]
    simp [sectionEventCount, hf]

theorem extractMealData_length {root : XmlRoot} {g : List MealRaw}
    (h : extractMealData root = .ok g) :
    g.length = sectionEventCount root "meal" := by
  cases hf : root.find "meal" with
  | none =>
    rw [extractMealData_of_absent hf] at h
    cases h
    simp [sectionEventCount, hf]
  | some sec =>
    rw [extractMealData_of_find hf] at h
    rw [exceptMap_ok_length h]
    simp [sectionEventCount, hf]

theorem find_append_single (root : XmlRoot) (dup : XmlSection) (name : String)
    (h : dup.tag ≠ name ∨ (root.find name).isSome) :
    XmlRoot.find ⟨root.children ++ [dup]⟩ name = root.find name := by
  unfold XmlRoot.find
  rw [List.find?_append]
  cases hf : root.children.find? (fun s => s.tag = name) with
  | some sec => rfl
  | none =>
    rcases h with h | h
    · simp [List.find?, h]
    · rw [XmlRoot.find, hf] at h
      simp at h

theorem extractTsValData_congr {r1 r2 : XmlRoot} {n : String}
    (h : r1.find n = r2.find n) :
    extractTsValData r1 n = extractTsValData r2 n := by
  unfold extractTsValData
  rw [h]

theorem extractTempBasalData_congr {r1 r2 : XmlRoot}
    (h : r1.find "temp_basal" = r2.find "temp_basal") :
    extractTempBasalData r1 = extractTempBasalData r2 := by
  unfold extractTempBasalData
  rw [h]

theorem extractBolusData_congr {r1 r2 : XmlRoot}
    (h : r1.find "bolus" = r2.find "bolus") :
    extractBolusData r1 = extractBolusData r2 := by
  unfold extractBolusData
  rw [h]

theorem extractMealData_congr {r1 r2 : XmlRoot}
    (h : r1.find "meal" = r2.find "meal") :
    extractMealData r1 = extractMealData r2 := by
  unfold extractMealData
  rw [h]

theorem load_congr {r1 r2 : XmlRoot}
    (h : ∀ n, n ∈ loadSectionNames → r1.find n = r2.find n) :
    load r1 = load r2 := by
  unfold load
  rw [extractTsValData_congr (h "glucose_level" (by decide)),
    extractTsValData_congr (h "basal" (by decide)),
    extractTempBasalData_congr (h "temp_basal" (by decide)),
    extractBolusData_congr (h "bolus" (by decide)),
    extractMealData_congr (h "meal" (by decide)),
    extractTsValData_congr (h "basis_steps" (by decide))]

theorem extractTsValData_empty {root : XmlRoot} {cname : String}
    (h : root.find cname = none ∨
      ∃ sec, root.find cname = some sec ∧ sec.findall "event" = []) :
    extractTsValData root cname = .ok [] := by
  rcases h with h | ⟨sec, hf, hev⟩
  · exact extractTsValData_of_absent h
  · rw [extractTsValData_of_find hf, hev]
    rfl

theorem extractTempBasalData_empty {root : XmlRoot}
    (h : root.find "temp_basal" = none ∨
      ∃ sec, root.find "temp_basal" = some sec ∧ sec.findall "event" = []) :
    extractTempBasalData root = .ok [] := by
  rcases h with h | ⟨sec, hf, hev⟩
  · exact extractTempBasalData_of_absent h
  · rw [extractTempBasalData_of_find hf, hev]
    rfl

theorem extractBolusData_empty {root : XmlRoot}
    (h : root.find "bolus" = none ∨
      ∃ sec, root.find "bolus" = some sec ∧ sec.findall "event" = []) :
    extractBolusData root = .ok [] := by
  rcases h with h | ⟨sec, hf, hev⟩
  · exact extractBolusData_of_absent h
  · rw [extractBolusData_of_find hf, hev]
    rfl

theorem extractMealData_empty {root : XmlRoot}
    (h : root.find "meal" = none ∨
      ∃ sec, root.find "meal" = some sec ∧ sec.findall "event" = []) :
    extractMealData root = .ok [] := by
  rcases h with h | ⟨sec, hf, hev⟩
  · exact extractMealData_of_absent h
  · rw [extractMealData_of_find hf, hev]
    rfl

/-! ### Claim theorems -/

/-- C1, counterexample: on the empty (well-formed) document `load` succeeds,
but the key list of the returned mapping is not the one the claim names —
the code uses `tempbasal` and `step` where the claim says `temp_basal` and
`basis_steps`. -/
theorem C1_counterexample :
    load emptyRoot = .ok emptyOut ∧
      emptyOut.map Prod.fst ≠ specClaimedKeys := by
  constructor <;> decide

/-- C1 (amended): for every document on which `load` succeeds, the returned
mapping has exactly the six fixed keys `glucose_level`, `basal`,
`tempbasal`, `bolus`, `meal`, `step`, one table per category, regardless of
which sections are present. -/
theorem C1_load_keys (root : XmlRoot) (m : List (String × TableVal))
    (h : load root = .ok m) :
    m.map Prod.fst = loadKeys ∧ m.length = 6 := by
  obtain ⟨g, b, t, bo, me, st, dg, db, dt, dbo, dme, dst,
    -, -, -, -, -, -, -, -, -, -, -, -, rfl⟩ := load_ok_decomp h
  exact ⟨rfl, rfl⟩

theorem C1_load_keys_witness :
    emptyOut.map Prod.fst = loadKeys ∧ emptyOut.length = 6 :=
  C1_load_keys emptyRoot emptyOut (by decide)

/-- C2, counterexample: `ts` is a required attribute of the
`glucose_level` schema, the event below lacks it, yet `load` succeeds and
returns tables (the missing timestamp becomes a null) — so a missing
required non-numeric attribute is not fatal. -/
theorem C2_counterexample :
    ("glucose_level", "ts") ∈ timestampSchema ∧ noTsEvent.get "ts" = none ∧
      load noTsRoot = .ok noTsOut := by
  refine ⟨by decide, by decide, by decide⟩

/-- C2 (amended): only the numeric attributes of a category's schema are
extraction-fatal: if any event of a located section lacks a required
numeric attribute, the entire `load` call fails with an error and no tables
are produced. -/
theorem C2_missing_numeric_fatal (root : XmlRoot) (cname fld : String)
    (sec : XmlSection) (e : XmlEvent)
    (hmem : (cname, fld) ∈ numericSchema) (hf : root.find cname = some sec)
    (he : e ∈ sec.findall "event") (ha : e.get fld = none) :
    ∃ er, load root = .error er := by
  apply load_error_exists
  intro m hm
  obtain ⟨g, b, t, bo, me, st, dg, db, dt, dbo, dme, dst,
    hg, hb, ht, hbo, hme, hst, -, -, -, -, -, -, -⟩ := load_ok_decomp hm
  simp only [numericSchema, List.mem_cons, List.not_mem_nil, or_false,
    Prod.mk.injEq] at hmem
  rcases hmem with hmm | hmm | hmm | hmm | hmm | hmm | hmm
  all_goals obtain ⟨rfl, rfl⟩ := hmm
  · rw [extractTsValData_of_find hf] at hg
    refine exceptMap_not_ok he ?_ g hg
    intro y hy
    obtain ⟨-, s, hs, -⟩ := extractTsValRow_ok hy
    rw [ha] at hs
    exact Option.noConfusion hs
  · rw [extractTsValData_of_find hf] at hb
    refine exceptMap_not_ok he ?_ b hb
    intro y hy
    obtain ⟨-, s, hs, -⟩ := extractTsValRow_ok hy
    rw [ha] at hs
    exact Option.noConfusion hs
  · rw [extractTempBasalData_of_find hf] at ht
    refine exceptMap_not_ok he ?_ t ht
    intro y hy
    obtain ⟨-, -, s, hs, -⟩ := extractTempBasalRow_ok hy
    rw [ha] at hs
    exact Option.noConfusion hs
  · rw [extractBolusData_of_find hf] at hbo
    refine exceptMap_not_ok he ?_ bo hbo
    intro y hy
    obtain ⟨-, -, -, ⟨s, hs, -⟩, -⟩ := extractBolusRow_ok hy
    rw [ha] at hs
    exact Option.noConfusion hs
  · rw [extractBolusData_of_find hf] at hbo
    refine exceptMap_not_ok he ?_ bo hbo
    intro y hy
    obtain ⟨-, -, -, -, s, hs, -⟩ := extractBolusRow_ok hy
    rw [ha] at hs
    exact Option.noConfusion hs
  · rw [extractMealData_of_find hf] at hme
    refine exceptMap_not_ok he ?_ me hme
    intro y hy
    obtain ⟨-, -, s, hs, -⟩ := extractMealRow_ok hy
    rw [ha] at hs
    exact Option.noConfusion hs
  · rw [extractTsValData_of_find hf] at hst
    refine exceptMap_not_ok he ?_ st hst
    intro y hy
    obtain ⟨-, s, hs, -⟩ := extractTsValRow_ok hy
    rw [ha] at hs
    exact Option.noConfusion hs

theorem C2_missing_numeric_fatal_witness :
    ∃ er, load noValueRoot = .error er :=
  C2_missing_numeric_fatal noValueRoot "glucose_level" "value"
    ⟨"glucose_level", [noValueEvent]⟩ noValueEvent (by decide) (by decide)
    (by decide) (by decide)

/-- C3: for each of the six categories, if the document's section is absent
or present with zero `event` children, the extraction step yields the empty
row list (no error arises), every successful `load` binds that category's
key to an empty table, and the timestamp-conversion step on an empty table
is skipped (it returns the empty table without ever invoking the timestamp
parser). -/
theorem C3_absent_section (root : XmlRoot) (cname key : String)
    (hmem : (cname, key) ∈ sectionKeyPairs)
    (habs : root.find cname = none ∨
      ∃ sec, root.find cname = some sec ∧ sec.findall "event" = []) :
    extractionEmptyOk root cname ∧
    (∀ m, load root = .ok m →
      (m.lookup key).map TableVal.rowCount = some 0) ∧
    convertTsValTable [] = .ok [] ∧ convertTempBasalTable [] = .ok [] ∧
    convertBolusTable [] = .ok [] ∧ convertMealTable [] = .ok [] := by
  simp only [sectionKeyPairs, List.mem_cons, List.not_mem_nil, or_false,
    Prod.mk.injEq] at hmem
  rcases hmem with hmm | hmm | hmm | hmm | hmm | hmm
  all_goals obtain ⟨rfl, rfl⟩ := hmm
  · refine ⟨extractTsValData_empty habs, ?_, rfl, rfl, rfl, rfl⟩
    intro m hm
    obtain ⟨g, b, t, bo, me, st, dg, db, dt, dbo, dme, dst,
      hg, hb, ht, hbo, hme, hst, hdg, hdb, hdt, hdbo, hdme, hdst, rfl⟩ :=
      load_ok_decomp hm
    rw [extractTsValData_empty habs] at hg
    cases hg
    have h0 : (Except.ok [] : Except PyError (List TsValRow)) = Except.ok dg := by
      rw [← hdg]
      rfl
    cases h0
    rfl
  · refine ⟨extractTsValData_empty habs, ?_, rfl, rfl, rfl, rfl⟩
    intro m hm
    obtain ⟨g, b, t, bo, me, st, dg, db, dt, dbo, dme, dst,
      hg, hb, ht, hbo, hme, hst, hdg, hdb, hdt, hdbo, hdme, hdst, rfl⟩ :=
      load_ok_decomp hm
    rw [extractTsValData_empty habs] at hb
    cases hb
    have h0 : (Except.ok [] : Except PyError (List TsValRow)) = Except.ok db := by
      rw [← hdb]
      rfl
    cases h0
    rfl
  · refine ⟨extractTempBasalData_empty habs, ?_, rfl, rfl, rfl, rfl⟩
    intro m hm
    obtain ⟨g, b, t, bo, me, st, dg, db, dt, dbo, dme, dst,
      hg, hb, ht, hbo, hme, hst, hdg, hdb, hdt, hdbo, hdme, hdst, rfl⟩ :=
      load_ok_decomp hm
    rw [extractTempBasalData_empty habs] at ht
    cases ht
    have h0 : (Except.ok [] : Except PyError (List TempBasalRow)) = Except.ok dt := by
      rw [← hdt]
      rfl
    cases h0
    rfl
  · refine ⟨extractBolusData_empty habs, ?_, rfl, rfl, rfl, rfl⟩
    intro m hm
    obtain ⟨g, b, t, bo, me, st, dg, db, dt, dbo, dme, dst,
      hg, hb, ht, hbo, hme, hst, hdg, hdb, hdt, hdbo, hdme, hdst, rfl⟩ :=
      load_ok_decomp hm
    rw [extractBolusData_empty habs] at hbo
    cases hbo
    have h0 : (Except.ok [] : Except PyError (List BolusRow)) = Except.ok dbo := by
      rw [← hdbo]
      rfl
    cases h0
    rfl
  · refine ⟨extractMealData_empty habs, ?_, rfl, rfl, rfl, rfl⟩
    intro m hm
    obtain ⟨g, b, t, bo, me, st, dg, db, dt, dbo, dme, dst,
      hg, hb, ht, hbo, hme, hst, hdg, hdb, hdt, hdbo, hdme, hdst, rfl⟩ :=
      load_ok_decomp hm
    rw [extractMealData_empty habs] at hme
    cases hme
    have h0 : (Except.ok [] : Except PyError (List MealRow)) = Except.ok dme := by
      rw [← hdme]
      rfl
    cases h0
    rfl
  · refine ⟨extractTsValData_empty habs, ?_, rfl, rfl, rfl, rfl⟩
    intro m hm
    obtain ⟨g, b, t, bo, me, st, dg, db, dt, dbo, dme, dst,
      hg, hb, ht, hbo, hme, hst, hdg, hdb, hdt, hdbo, hdme, hdst, rfl⟩ :=
      load_ok_decomp hm
    rw [extractTsValData_empty habs] at hst
    cases hst
    have h0 : (Except.ok [] : Except PyError (List TsValRow)) = Except.ok dst := by
      rw [← hdst]
      rfl
    cases h0
    rfl

theorem C3_absent_section_witness :
    (glucoseOut.lookup "meal").map TableVal.rowCount = some 0 ∧
      (emptyOut.lookup "meal").map TableVal.rowCount = some 0 :=
  ⟨(C3_absent_section glucoseRoot "meal" "meal" (by decide)
      (Or.inl (by decide))).2.1 glucoseOut (by decide),
   (C3_absent_section emptyMealRoot "meal" "meal" (by decide)
      (Or.inr ⟨⟨"meal", []⟩, by decide, by decide⟩)).2.1 emptyOut (by decide)⟩

/-- C4: on every successful `load`, the row count of each category's table
equals the number of `event` elements under the corresponding section of
the document (0 if the section is absent). -/
theorem C4_row_count (root : XmlRoot) (m : List (String × TableVal))
    (h : load root = .ok m) (cname key : String)
    (hmem : (cname, key) ∈ sectionKeyPairs) :
    (m.lookup key).map TableVal.rowCount = some (sectionEventCount root cname) := by
  obtain ⟨g, b, t, bo, me, st, dg, db, dt, dbo, dme, dst,
    hg, hb, ht, hbo, hme, hst, hdg, hdb, hdt, hdbo, hdme, hdst, rfl⟩ :=
    load_ok_decomp h
  simp only [sectionKeyPairs, List.mem_cons, List.not_mem_nil, or_false,
    Prod.mk.injEq] at hmem
  rcases hmem with hmm | hmm | hmm | hmm | hmm | hmm
  all_goals obtain ⟨rfl, rfl⟩ := hmm
  · have hdg' : (if g.isEmpty then Except.ok [] else
        exceptMap convertTsValRow g) = .ok dg := hdg
    show some dg.length = some (sectionEventCount root "glucose_level")
    rw [convertShape_length hdg', extractTsValData_length hg]
  · have hdb' : (if b.isEmpty then Except.ok [] else
        exceptMap convertTsValRow b) = .ok db := hdb
    show some db.length = some (sectionEventCount root "basal")
    rw [convertShape_length hdb', extractTsValData_length hb]
  · have hdt' : (if t.isEmpty then Except.ok [] else
        exceptMap convertTempBasalRow t) = .ok dt := hdt
    show some dt.length = some (sectionEventCount root "temp_basal")
    rw [convertShape_length hdt', extractTempBasalData_length ht]
  · have hdbo' : (if bo.isEmpty then Except.ok [] else
        exceptMap convertBolusRow bo) = .ok dbo := hdbo
    show some dbo.length = some (sectionEventCount root "bolus")
    rw [convertShape_length hdbo', extractBolusData_length hbo]
  · have hdme' : (if me.isEmpty then Except.ok [] else
        exceptMap convertMealRow me) = .ok dme := hdme
    show some dme.length = some (sectionEventCount root "meal")
    rw [convertShape_length hdme', extractMealData_length hme]
  · have hdst' : (if st.isEmpty then Except.ok [] else
        exceptMap convertTsValRow st) = .ok dst := hdst
    show some dst.length = some (sectionEventCount root "basis_steps")
    rw [convertShape_length hdst', extractTsValData_length hst]

theorem C4_row_count_witness :
    (meal3Out.lookup "meal").map TableVal.rowCount =
      some (sectionEventCount meal3Root "meal") :=
  C4_row_count meal3Root meal3Out (by decide) "meal" "meal" (by decide)

/-- C5: on every successful `load`, the i-th row of each category's table is
obtained from the i-th `event` element of the located section (extraction
followed by timestamp conversion of exactly that element) — row order is
document order, with no sorting or deduplication. -/
theorem C5_document_order (root : XmlRoot) (m : List (String × TableVal))
    (h : load root = .ok m) :
    (∀ sec rows, root.find "glucose_level" = some sec →
      m.lookup "glucose_level" = some (.tsval rows) →
      ∀ i r, rows.get? i = some r →
        ∃ e raw, (sec.findall "event").get? i = some e ∧
          extractTsValRow e = .ok raw ∧ convertTsValRow raw = .ok r) ∧
    (∀ sec rows, root.find "basal" = some sec →
      m.lookup "basal" = some (.tsval rows) →
      ∀ i r, rows.get? i = some r →
        ∃ e raw, (sec.findall "event").get? i = some e ∧
          extractTsValRow e = .ok raw ∧ convertTsValRow raw = .ok r) ∧
    (∀ sec rows, root.find "temp_basal" = some sec →
      m.lookup "tempbasal" = some (.tempb rows) →
      ∀ i r, rows.get? i = some r →
        ∃ e raw, (sec.findall "event").get? i = some e ∧
          extractTempBasalRow e = .ok raw ∧ convertTempBasalRow raw = .ok r) ∧
    (∀ sec rows, root.find "bolus" = some sec →
      m.lookup "bolus" = some (.bolusT rows) →
      ∀ i r, rows.get? i = some r →
        ∃ e raw, (sec.findall "event").get? i = some e ∧
          extractBolusRow e = .ok raw ∧ convertBolusRow raw = .ok r) ∧
    (∀ sec rows, root.find "meal" = some sec →
      m.lookup "meal" = some (.mealT rows) →
      ∀ i r, rows.get? i = some r →
        ∃ e raw, (sec.findall "event").get? i = some e ∧
          extractMealRow e = .ok raw ∧ convertMealRow raw = .ok r) ∧
    (∀ sec rows, root.find "basis_steps" = some sec →
      m.lookup "step" = some (.tsval rows) →
      ∀ i r, rows.get? i = some r →
        ∃ e raw, (sec.findall "event").get? i = some e ∧
          extractTsValRow e = .ok raw ∧ convertTsValRow raw = .ok r) := by
  obtain ⟨g, b, t, bo, me, st, dg, db, dt, dbo, dme, dst,
    hg, hb, ht, hbo, hme, hst, hdg, hdb, hdt, hdbo, hdme, hdst, rfl⟩ :=
    load_ok_decomp h
  refine ⟨?_, ?_, ?_, ?_, ?_, ?_⟩
  · intro sec rows hf hlk i r hr
    have hlk' : (some (TableVal.tsval dg) : Option TableVal) =
        some (.tsval rows) := hlk
    injection hlk' with h1
    injection h1 with h2
    subst h2
    have hdg' : (if g.isEmpty then Except.ok [] else
        exceptMap convertTsValRow g) = .ok dg := hdg
    obtain ⟨raw, hraw, hconv⟩ := convertShape_get? hdg' i r hr
    rw [extractTsValData_of_find hf] at hg
    obtain ⟨e, he, hex⟩ := exceptMap_ok_get? hg i raw hraw
    exact ⟨e, raw, he, hex, hconv⟩
  · intro sec rows hf hlk i r hr
    have hlk' : (some (TableVal.tsval db) : Option TableVal) =
        some (.tsval rows) := hlk
    injection hlk' with h1
    injection h1 with h2
    subst h2
    have hdb' : (if b.isEmpty then Except.ok [] else
        exceptMap convertTsValRow b) = .ok db := hdb
    obtain ⟨raw, hraw, hconv⟩ := convertShape_get? hdb' i r hr
    rw [extractTsValData_of_find hf] at hb
    obtain ⟨e, he, hex⟩ := exceptMap_ok_get? hb i raw hraw
    exact ⟨e, raw, he, hex, hconv⟩
  · intro sec rows hf hlk i r hr
    have hlk' : (some (TableVal.tempb dt) : Option TableVal) =
        some (.tempb rows) := hlk
    injection hlk' with h1
    injection h1 with h2
    subst h2
    have hdt' : (if t.isEmpty then Except.ok [] else
        exceptMap convertTempBasalRow t) = .ok dt := hdt
    obtain ⟨raw, hraw, hconv⟩ := convertShape_get? hdt' i r hr
    rw [extractTempBasalData_of_find hf] at ht
    obtain ⟨e, he, hex⟩ := exceptMap_ok_get? ht i raw hraw
    exact ⟨e, raw, he, hex, hconv⟩
  · intro sec rows hf hlk i r hr
    have hlk' : (some (TableVal.bolusT dbo) : Option TableVal) =
        some (.bolusT rows) := hlk
    injection hlk' with h1
    injection h1 with h2
    subst h2
    have hdbo' : (if bo.isEmpty then Except.ok [] else
        exceptMap convertBolusRow bo) = .ok dbo := hdbo
    obtain ⟨raw, hraw, hconv⟩ := convertShape_get? hdbo' i r hr
    rw [extractBolusData_of_find hf] at hbo
    obtain ⟨e, he, hex⟩ := exceptMap_ok_get? hbo i raw hraw
    exact ⟨e, raw, he, hex, hconv⟩
  · intro sec rows hf hlk i r hr
    have hlk' : (some (TableVal.mealT dme) : Option TableVal) =
        some (.mealT rows) := hlk
    injection hlk' with h1
    injection h1 with h2
    subst h2
    have hdme' : (if me.isEmpty then Except.ok [] else
        exceptMap convertMealRow me) = .ok dme := hdme
    obtain ⟨raw, hraw, hconv⟩ := convertShape_get? hdme' i r hr
    rw [extractMealData_of_find hf] at hme
    obtain ⟨e, he, hex⟩ := exceptMap_ok_get? hme i raw hraw
    exact ⟨e, raw, he, hex, hconv⟩
  · intro sec rows hf hlk i r hr
    have hlk' : (some (TableVal.tsval dst) : Option TableVal) =
        some (.tsval rows) := hlk
    injection hlk' with h1
    injection h1 with h2
    subst h2
    have hdst' : (if st.isEmpty then Except.ok [] else
        exceptMap convertTsValRow st) = .ok dst := hdst
    obtain ⟨raw, hraw, hconv⟩ := convertShape_get? hdst' i r hr
    rw [extractTsValData_of_find hf] at hst
    obtain ⟨e, he, hex⟩ := exceptMap_ok_get? hst i raw hraw
    exact ⟨e, raw, he, hex, hconv⟩

theorem C5_document_order_witness :
    ∃ e raw, (meal3Sec.findall "event").get? 0 = some e ∧
      extractMealRow e = .ok raw ∧
      convertMealRow raw = .ok ⟨some ⟨2021, 1, 1, 8, 0, 0⟩, some "Breakfast", 45⟩ :=
  (C5_document_order meal3Root meal3Out (by decide)).2.2.2.2.1 meal3Sec
    meal3Rows (by decide) (by decide) 0
    ⟨some ⟨2021, 1, 1, 8, 0, 0⟩, some "Breakfast", 45⟩ (by decide)

/-- C6: duplicate sibling sections are ignored beyond the first: appending a
second section with an already-present category name leaves the result of
`load` unchanged, and the concrete two-`meal`-section document yields a meal
table with exactly the one row of the first section's event. -/
theorem C6_first_section_wins :
    (∀ (root : XmlRoot) (cname : String) (sec dup : XmlSection),
      root.find cname = some sec → dup.tag = cname →
      load ⟨root.children ++ [dup]⟩ = load root) ∧
    mealSecA.tag = "meal" ∧ mealSecB.tag = "meal" ∧
    dupMealRoot.children = [mealSecA, mealSecB] ∧
    load dupMealRoot = .ok [("glucose_level", .tsval []), ("basal", .tsval []),
      ("tempbasal", .tempb []), ("bolus", .bolusT []),
      ("meal", .mealT [⟨some ⟨2021, 1, 1, 8, 0, 0⟩, some "Breakfast", 45⟩]),
      ("step", .tsval [])] := by
  refine ⟨?_, by decide, by decide, rfl, by decide⟩
  intro root cname sec dup hf hdup
  apply load_congr
  intro n hn
  apply find_append_single
  by_cases hc : n = cname
  · subst hc
    right
    rw [hf]
    rfl
  · left
    rw [hdup]
    exact fun heq => hc heq.symm

theorem C6_first_section_wins_witness :
    load ⟨[mealSecA] ++ [mealSecB]⟩ = load ⟨[mealSecA]⟩ :=
  C6_first_section_wins.1 ⟨[mealSecA]⟩ "meal" mealSecA mealSecB (by decide)
    (by decide)

/-- C7: timestamp fields of non-empty tables hold the chronological value
parsed from the literal attribute text in the fixed format `%d-%m-%Y
%H:%M:%S` (with the spec's example `02-12-2021 06:14:00` mapping to year
2021, month 12, day 2, hour 6, minute 14, second 0), and any timestamp
attribute text that does not match the format makes the whole `load` call
fail. -/
theorem C7_timestamps (root : XmlRoot) (m : List (String × TableVal))
    (h : load root = .ok m) :
    parseTimestamp "02-12-2021 06:14:00" = some ⟨2021, 12, 2, 6, 14, 0⟩ ∧
    (∀ sec rows, root.find "glucose_level" = some sec →
      m.lookup "glucose_level" = some (.tsval rows) →
      ∀ i r, rows.get? i = some r →
        ∃ e, (sec.findall "event").get? i = some e ∧
          ∀ s, e.get "ts" = some s → r.timestamp = parseTimestamp s) ∧
    (∀ sec rows, root.find "basal" = some sec →
      m.lookup "basal" = some (.tsval rows) →
      ∀ i r, rows.get? i = some r →
        ∃ e, (sec.findall "event").get? i = some e ∧
          ∀ s, e.get "ts" = some s → r.timestamp = parseTimestamp s) ∧
    (∀ sec rows, root.find "temp_basal" = some sec →
      m.lookup "tempbasal" = some (.tempb rows) →
      ∀ i r, rows.get? i = some r →
        ∃ e, (sec.findall "event").get? i = some e ∧
          (∀ s, e.get "ts_begin" = some s → r.ts_begin = parseTimestamp s) ∧
          (∀ s, e.get "ts_end" = some s → r.ts_end = parseTimestamp s)) ∧
    (∀ sec rows, root.find "bolus" = some sec →
      m.lookup "bolus" = some (.bolusT rows) →
      ∀ i r, rows.get? i = some r →
        ∃ e, (sec.findall "event").get? i = some e ∧
          (∀ s, e.get "ts_begin" = some s → r.ts_begin = parseTimestamp s) ∧
          (∀ s, e.get "ts_end" = some s → r.ts_end = parseTimestamp s)) ∧
    (∀ sec rows, root.find "meal" = some sec →
      m.lookup "meal" = some (.mealT rows) →
      ∀ i r, rows.get? i = some r →
        ∃ e, (sec.findall "event").get? i = some e ∧
          ∀ s, e.get "ts" = some s → r.timestamp = parseTimestamp s) ∧
    (∀ sec rows, root.find "basis_steps" = some sec →
      m.lookup "step" = some (.tsval rows) →
      ∀ i r, rows.get? i = some r →
        ∃ e, (sec.findall "event").get? i = some e ∧
          ∀ s, e.get "ts" = some s → r.timestamp = parseTimestamp s) ∧
    (∀ (root' : XmlRoot) (cname fld : String) (sec : XmlSection)
        (e : XmlEvent) (s : String), (cname, fld) ∈ timestampSchema →
      root'.find cname = some sec → e ∈ sec.findall "event" →
      e.get fld = some s → parseTimestamp s = none →
      ∃ er, load root' = .error er) := by
  obtain ⟨g, b, t, bo, me, st, dg, db, dt, dbo, dme, dst,
    hg, hb, ht, hbo, hme, hst, hdg, hdb, hdt, hdbo, hdme, hdst, rfl⟩ :=
    load_ok_decomp h
  refine ⟨by decide, ?_, ?_, ?_, ?_, ?_, ?_, ?_⟩
  · intro sec rows hf hlk i r hr
    have hlk' : (some (TableVal.tsval dg) : Option TableVal) =
        some (.tsval rows) := hlk
    injection hlk' with h1
    injection h1 with h2
    subst h2
    have hdg' : (if g.isEmpty then Except.ok [] else
        exceptMap convertTsValRow g) = .ok dg := hdg
    obtain ⟨raw, hraw, hconv⟩ := convertShape_get? hdg' i r hr
    rw [extractTsValData_of_find hf] at hg
    obtain ⟨e, he, hex⟩ := exceptMap_ok_get? hg i raw hraw
    refine ⟨e, he, ?_⟩
    intro s hs
    obtain ⟨hts, -⟩ := extractTsValRow_ok hex
    obtain ⟨-, hcv⟩ := convertTsValRow_ok hconv
    rw [hts, hs] at hcv
    exact convertTs_some_ok hcv
  · intro sec rows hf hlk i r hr
    have hlk' : (some (TableVal.tsval db) : Option TableVal) =
        some (.tsval rows) := hlk
    injection hlk' with h1
    injection h1 with h2
    subst h2
    have hdb' : (if b.isEmpty then Except.ok [] else
        exceptMap convertTsValRow b) = .ok db := hdb
    obtain ⟨raw, hraw, hconv⟩ := convertShape_get? hdb' i r hr
    rw [extractTsValData_of_find hf] at hb
    obtain ⟨e, he, hex⟩ := exceptMap_ok_get? hb i raw hraw
    refine ⟨e, he, ?_⟩
    intro s hs
    obtain ⟨hts, -⟩ := extractTsValRow_ok hex
    obtain ⟨-, hcv⟩ := convertTsValRow_ok hconv
    rw [hts, hs] at hcv
    exact convertTs_some_ok hcv
  · intro sec rows hf hlk i r hr
    have hlk' : (some (TableVal.tempb dt) : Option TableVal) =
        some (.tempb rows) := hlk
    injection hlk' with h1
    injection h1 with h2
    subst h2
    have hdt' : (if t.isEmpty then Except.ok [] else
        exceptMap convertTempBasalRow t) = .ok dt := hdt
    obtain ⟨raw, hraw, hconv⟩ := convertShape_get? hdt' i r hr
    rw [extractTempBasalData_of_find hf] at ht
    obtain ⟨e, he, hex⟩ := exceptMap_ok_get? ht i raw hraw
    obtain ⟨htb, hte, -⟩ := extractTempBasalRow_ok hex
    obtain ⟨-, hcb, hce⟩ := convertTempBasalRow_ok hconv
    refine ⟨e, he, ?_, ?_⟩
    · intro s hs
      rw [htb, hs] at hcb
      exact convertTs_some_ok hcb
    · intro s hs
      rw [hte, hs] at hce
      exact convertTs_some_ok hce
  · intro sec rows hf hlk i r hr
    have hlk' : (some (TableVal.bolusT dbo) : Option TableVal) =
        some (.bolusT rows) := hlk
    injection hlk' with h1
    injection h1 with h2
    subst h2
    have hdbo' : (if bo.isEmpty then Except.ok [] else
        exceptMap convertBolusRow bo) = .ok dbo := hdbo
    obtain ⟨raw, hraw, hconv⟩ := convertShape_get? hdbo' i r hr
    rw [extractBolusData_of_find hf] at hbo
    obtain ⟨e, he, hex⟩ := exceptMap_ok_get? hbo i raw hraw
    obtain ⟨htb, hte, -, -, -⟩ := extractBolusRow_ok hex
    obtain ⟨-, -, -, hcb, hce⟩ := convertBolusRow_ok hconv
    refine ⟨e, he, ?_, ?_⟩
    · intro s hs
      rw [htb, hs] at hcb
      exact convertTs_some_ok hcb
    · intro s hs
      rw [hte, hs] at hce
      exact convertTs_some_ok hce
  · intro sec rows hf hlk i r hr
    have hlk' : (some (TableVal.mealT dme) : Option TableVal) =
        some (.mealT rows) := hlk
    injection hlk' with h1
    injection h1 with h2
    subst h2
    have hdme' : (if me.isEmpty then Except.ok [] else
        exceptMap convertMealRow me) = .ok dme := hdme
    obtain ⟨raw, hraw, hconv⟩ := convertShape_get? hdme' i r hr
    rw [extractMealData_of_find hf] at hme
    obtain ⟨e, he, hex⟩ := exceptMap_ok_get? hme i raw hraw
    refine ⟨e, he, ?_⟩
    intro s hs
    obtain ⟨hts, -, -⟩ := extractMealRow_ok hex
    obtain ⟨-, -, hcv⟩ := convertMealRow_ok hconv
    rw [hts, hs] at hcv
    exact convertTs_some_ok hcv
  · intro sec rows hf hlk i r hr
    have hlk' : (some (TableVal.tsval dst) : Option TableVal) =
        some (.tsval rows) := hlk
    injection hlk' with h1
    injection h1 with h2
    subst h2
    have hdst' : (if st.isEmpty then Except.ok [] else
        exceptMap convertTsValRow st) = .ok dst := hdst
    obtain ⟨raw, hraw, hconv⟩ := convertShape_get? hdst' i r hr
    rw [extractTsValData_of_find hf] at hst
    obtain ⟨e, he, hex⟩ := exceptMap_ok_get? hst i raw hraw
    refine ⟨e, he, ?_⟩
    intro s hs
    obtain ⟨hts, -⟩ := extractTsValRow_ok hex
    obtain ⟨-, hcv⟩ := convertTsValRow_ok hconv
    rw [hts, hs] at hcv
    exact convertTs_some_ok hcv
  · intro root' cname fld sec e s hmem hf he hs hp
    apply load_error_exists
    intro m' hm'
    obtain ⟨g', b', t', bo', me', st', dg', db', dt', dbo', dme', dst',
      hg', hb', ht', hbo', hme', hst', hdg', hdb', hdt', hdbo', hdme', hdst',
      rfl⟩ := load_ok_decomp hm'
    simp only [timestampSchema, List.mem_cons, List.not_mem_nil, or_false,
      Prod.mk.injEq] at hmem
    rcases hmem with hmm | hmm | hmm | hmm | hmm | hmm | hmm | hmm
    all_goals obtain ⟨rfl, rfl⟩ := hmm
    · rw [extractTsValData_of_find hf] at hg'
      obtain ⟨raw, hrawmem, hex⟩ := exceptMap_ok_mem hg' he
      obtain ⟨hts, -⟩ := extractTsValRow_ok hex
      have hfail : ∀ y, convertTsValRow raw ≠ .ok y := by
        intro y hy
        obtain ⟨-, hcv⟩ := convertTsValRow_ok hy
        rw [hts, hs, convertTs_some_bad hp] at hcv
        exact Except.noConfusion hcv
      have hdg2 : (if g'.isEmpty then Except.ok [] else
          exceptMap convertTsValRow g') = .ok dg' := hdg'
      exact convertShape_not_ok hrawmem hfail dg' hdg2
    · rw [extractTsValData_of_find hf] at hb'
      obtain ⟨raw, hrawmem, hex⟩ := exceptMap_ok_mem hb' he
      obtain ⟨hts, -⟩ := extractTsValRow_ok hex
      have hfail : ∀ y, convertTsValRow raw ≠ .ok y := by
        intro y hy
        obtain ⟨-, hcv⟩ := convertTsValRow_ok hy
        rw [hts, hs, convertTs_some_bad hp] at hcv
        exact Except.noConfusion hcv
      have hdb2 : (if b'.isEmpty then Except.ok [] else
          exceptMap convertTsValRow b') = .ok db' := hdb'
      exact convertShape_not_ok hrawmem hfail db' hdb2
    · rw [extractTempBasalData_of_find hf] at ht'
      obtain ⟨raw, hrawmem, hex⟩ := exceptMap_ok_mem ht' he
      obtain ⟨htb, -, -⟩ := extractTempBasalRow_ok hex
      have hfail : ∀ y, convertTempBasalRow raw ≠ .ok y := by
        intro y hy
        obtain ⟨-, hcb, -⟩ := convertTempBasalRow_ok hy
        rw [htb, hs, convertTs_some_bad hp] at hcb
        exact Except.noConfusion hcb
      have hdt2 : (if t'.isEmpty then Except.ok [] else
          exceptMap convertTempBasalRow t') = .ok dt' := hdt'
      exact convertShape_not_ok hrawmem hfail dt' hdt2
    · rw [extractTempBasalData_of_find hf] at ht'
      obtain ⟨raw, hrawmem, hex⟩ := exceptMap_ok_mem ht' he
      obtain ⟨-, hte, -⟩ := extractTempBasalRow_ok hex
      have hfail : ∀ y, convertTempBasalRow raw ≠ .ok y := by
        intro y hy
        obtain ⟨-, -, hce⟩ := convertTempBasalRow_ok hy
        rw [hte, hs, convertTs_some_bad hp] at hce
        exact Except.noConfusion hce
      have hdt2 : (if t'.isEmpty then Except.ok [] else
          exceptMap convertTempBasalRow t') = .ok dt' := hdt'
      exact convertShape_not_ok hrawmem hfail dt' hdt2
    · rw [extractBolusData_of_find hf] at hbo'
      obtain ⟨raw, hrawmem, hex⟩ := exceptMap_ok_mem hbo' he
      obtain ⟨htb, -, -, -, -⟩ := extractBolusRow_ok hex
      have hfail : ∀ y, convertBolusRow raw ≠ .ok y := by
        intro y hy
        obtain ⟨-, -, -, hcb, -⟩ := convertBolusRow_ok hy
        rw [htb, hs, convertTs_some_bad hp] at hcb
        exact Except.noConfusion hcb
      have hdbo2 : (if bo'.isEmpty then Except.ok [] else
          exceptMap convertBolusRow bo') = .ok dbo' := hdbo'
      exact convertShape_not_ok hrawmem hfail dbo' hdbo2
    · rw [extractBolusData_of_find hf] at hbo'
      obtain ⟨raw, hrawmem, hex⟩ := exceptMap_ok_mem hbo' he
      obtain ⟨-, hte, -, -, -⟩ := extractBolusRow_ok hex
      have hfail : ∀ y, convertBolusRow raw ≠ .ok y := by
        intro y hy
        obtain ⟨-, -, -, -, hce⟩ := convertBolusRow_ok hy
        rw [hte, hs, convertTs_some_bad hp] at hce
        exact Except.noConfusion hce
      have hdbo2 : (if bo'.isEmpty then Except.ok [] else
          exceptMap convertBolusRow bo') = .ok dbo' := hdbo'
      exact convertShape_not_ok hrawmem hfail dbo' hdbo2
    · rw [extractMealData_of_find hf] at hme'
      obtain ⟨raw, hrawmem, hex⟩ := exceptMap_ok_mem hme' he
      obtain ⟨hts, -, -⟩ := extractMealRow_ok hex
      have hfail : ∀ y, convertMealRow raw ≠ .ok y := by
        intro y hy
        obtain ⟨-, -, hcv⟩ := convertMealRow_ok hy
        rw [hts, hs, convertTs_some_bad hp] at hcv
        exact Except.noConfusion hcv
      have hdme2 : (if me'.isEmpty then Except.ok [] else
          exceptMap convertMealRow me') = .ok dme' := hdme'
      exact convertShape_not_ok hrawmem hfail dme' hdme2
    · rw [extractTsValData_of_find hf] at hst'
      obtain ⟨raw, hrawmem, hex⟩ := exceptMap_ok_mem hst' he
      obtain ⟨hts, -⟩ := extractTsValRow_ok hex
      have hfail : ∀ y, convertTsValRow raw ≠ .ok y := by
        intro y hy
        obtain ⟨-, hcv⟩ := convertTsValRow_ok hy
        rw [hts, hs, convertTs_some_bad hp] at hcv
        exact Except.noConfusion hcv
      have hdst2 : (if st'.isEmpty then Except.ok [] else
          exceptMap convertTsValRow st') = .ok dst' := hdst'
      exact convertShape_not_ok hrawmem hfail dst' hdst2

theorem C7_timestamps_witness :
    parseTimestamp "02-12-2021 06:14:00" = some ⟨2021, 12, 2, 6, 14, 0⟩ :=
  (C7_timestamps glucoseRoot glucoseOut (by decide)).1

/-- C8: `load` is all-or-nothing — for every input document it either
returns the complete six-entry mapping or signals an error and produces no
tables; concretely, a numeric failure in the `meal` section makes the call
error out even though the `glucose_level` section would have parsed
cleanly. -/
theorem C8_all_or_nothing :
    (∀ root : XmlRoot,
      (∃ m, load root = .ok m ∧ m.map Prod.fst = loadKeys) ∨
      ∃ er, load root = .error er) ∧
    mixedRoot.find "glucose_level" = some ⟨"glucose_level", [glucoseEvent]⟩ ∧
    load mixedRoot = .error .valueError := by
  refine ⟨?_, by decide, by decide⟩
  intro root
  cases hl : load root with
  | ok m =>
    left
    refine ⟨m, rfl, ?_⟩
    obtain ⟨g, b, t, bo, me, st, dg, db, dt, dbo, dme, dst,
      -, -, -, -, -, -, -, -, -, -, -, -, rfl⟩ := load_ok_decomp hl
    rfl
  | error er => exact Or.inr ⟨er, rfl⟩

/-- C9: numeric attributes are coerced from their exact text to numbers,
round-tripping exactly for representable decimal values (`"150.0"` → 150,
`"5"` → 5), every numeric cell of a successful load is the coercion of the
corresponding event's attribute text, and text that cannot be parsed as a
number makes the whole `load` call fail. -/
theorem C9_numeric_coercion (root : XmlRoot) (m : List (String × TableVal))
    (h : load root = .ok m) :
    (pyFloat "150.0" = some 150 ∧ pyFloat "5" = some 5 ∧
      pyFloat "abc" = none) ∧
    (∀ sec rows, root.find "glucose_level" = some sec →
      m.lookup "glucose_level" = some (.tsval rows) →
      ∀ i r, rows.get? i = some r →
        ∃ e, (sec.findall "event").get? i = some e ∧
          ∃ s, e.get "value" = some s ∧ pyFloat s = some r.value) ∧
    (∀ sec rows, root.find "basal" = some sec →
      m.lookup "basal" = some (.tsval rows) →
      ∀ i r, rows.get? i = some r →
        ∃ e, (sec.findall "event").get? i = some e ∧
          ∃ s, e.get "value" = some s ∧ pyFloat s = some r.value) ∧
    (∀ sec rows, root.find "temp_basal" = some sec →
      m.lookup "tempbasal" = some (.tempb rows) →
      ∀ i r, rows.get? i = some r →
        ∃ e, (sec.findall "event").get? i = some e ∧
          ∃ s, e.get "value" = some s ∧ pyFloat s = some r.value) ∧
    (∀ sec rows, root.find "bolus" = some sec →
      m.lookup "bolus" = some (.bolusT rows) →
      ∀ i r, rows.get? i = some r →
        ∃ e, (sec.findall "event").get? i = some e ∧
          (∃ s, e.get "dose" = some s ∧ pyFloat s = some r.dose) ∧
          (∃ s, e.get "bwz_carb_input" = some s ∧
            pyFloat s = some r.bwz_carb_input)) ∧
    (∀ sec rows, root.find "meal" = some sec →
      m.lookup "meal" = some (.mealT rows) →
      ∀ i r, rows.get? i = some r →
        ∃ e, (sec.findall "event").get? i = some e ∧
          ∃ s, e.get "carbs" = some s ∧ pyFloat s = some r.carbs) ∧
    (∀ sec rows, root.find "basis_steps" = some sec →
      m.lookup "step" = some (.tsval rows) →
      ∀ i r, rows.get? i = some r →
        ∃ e, (sec.findall "event").get? i = some e ∧
          ∃ s, e.get "value" = some s ∧ pyFloat s = some r.value) ∧
    (∀ (root' : XmlRoot) (cname fld : String) (sec : XmlSection)
        (e : XmlEvent) (s : String), (cname, fld) ∈ numericSchema →
      root'.find cname = some sec → e ∈ sec.findall "event" →
      e.get fld = some s → pyFloat s = none →
      ∃ er, load root' = .error er) := by
  obtain ⟨g, b, t, bo, me, st, dg, db, dt, dbo, dme, dst,
    hg, hb, ht, hbo, hme, hst, hdg, hdb, hdt, hdbo, hdme, hdst, rfl⟩ :=
    load_ok_decomp h
  refine ⟨⟨by decide, by decide, by decide⟩, ?_, ?_, ?_, ?_, ?_, ?_, ?_⟩
  · intro sec rows hf hlk i r hr
    have hlk' : (some (TableVal.tsval dg) : Option TableVal) =
        some (.tsval rows) := hlk
    injection hlk' with h1
    injection h1 with h2
    subst h2
    have hdg' : (if g.isEmpty then Except.ok [] else
        exceptMap convertTsValRow g) = .ok dg := hdg
    obtain ⟨raw, hraw, hconv⟩ := convertShape_get? hdg' i r hr
    rw [extractTsValData_of_find hf] at hg
    obtain ⟨e, he, hex⟩ := exceptMap_ok_get? hg i raw hraw
    obtain ⟨-, s, hs, hq⟩ := extractTsValRow_ok hex
    obtain ⟨hval, -⟩ := convertTsValRow_ok hconv
    exact ⟨e, he, s, hs, by rw [hval]; exact hq⟩
  · intro sec rows hf hlk i r hr
    have hlk' : (some (TableVal.tsval db) : Option TableVal) =
        some (.tsval rows) := hlk
    injection hlk' with h1
    injection h1 with h2
    subst h2
    have hdb' : (if b.isEmpty then Except.ok [] else
        exceptMap convertTsValRow b) = .ok db := hdb
    obtain ⟨raw, hraw, hconv⟩ := convertShape_get? hdb' i r hr
    rw [extractTsValData_of_find hf] at hb
    obtain ⟨e, he, hex⟩ := exceptMap_ok_get? hb i raw hraw
    obtain ⟨-, s, hs, hq⟩ := extractTsValRow_ok hex
    obtain ⟨hval, -⟩ := convertTsValRow_ok hconv
    exact ⟨e, he, s, hs, by rw [hval]; exact hq⟩
  · intro sec rows hf hlk i r hr
    have hlk' : (some (TableVal.tempb dt) : Option TableVal) =
        some (.tempb rows) := hlk
    injection hlk' with h1
    injection h1 with h2
    subst h2
    have hdt' : (if t.isEmpty then Except.ok [] else
        exceptMap convertTempBasalRow t) = .ok dt := hdt
    obtain ⟨raw, hraw, hconv⟩ := convertShape_get? hdt' i r hr
    rw [extractTempBasalData_of_find hf] at ht
    obtain ⟨e, he, hex⟩ := exceptMap_ok_get? ht i raw hraw
    obtain ⟨-, -, s, hs, hq⟩ := extractTempBasalRow_ok hex
    obtain ⟨hval, -, -⟩ := convertTempBasalRow_ok hconv
    exact ⟨e, he, s, hs, by rw [hval]; exact hq⟩
  · intro sec rows hf hlk i r hr
    have hlk' : (some (TableVal.bolusT dbo) : Option TableVal) =
        some (.bolusT rows) := hlk
    injection hlk' with h1
    injection h1 with h2
    subst h2
    have hdbo' : (if bo.isEmpty then Except.ok [] else
        exceptMap convertBolusRow bo) = .ok dbo := hdbo
    obtain ⟨raw, hraw, hconv⟩ := convertShape_get? hdbo' i r hr
    rw [extractBolusData_of_find hf] at hbo
    obtain ⟨e, he, hex⟩ := exceptMap_ok_get? hbo i raw hraw
    obtain ⟨-, -, -, ⟨s1, hs1, hq1⟩, s2, hs2, hq2⟩ := extractBolusRow_ok hex
    obtain ⟨hd, hc, -, -, -⟩ := convertBolusRow_ok hconv
    exact ⟨e, he, ⟨s1, hs1, by rw [hd]; exact hq1⟩,
      ⟨s2, hs2, by rw [hc]; exact hq2⟩⟩
  · intro sec rows hf hlk i r hr
    have hlk' : (some (TableVal.mealT dme) : Option TableVal) =
        some (.mealT rows) := hlk
    injection hlk' with h1
    injection h1 with h2
    subst h2
    have hdme' : (if me.isEmpty then Except.ok [] else
        exceptMap convertMealRow me) = .ok dme := hdme
    obtain ⟨raw, hraw, hconv⟩ := convertShape_get? hdme' i r hr
    rw [extractMealData_of_find hf] at hme
    obtain ⟨e, he, hex⟩ := exceptMap_ok_get? hme i raw hraw
    obtain ⟨-, -, s, hs, hq⟩ := extractMealRow_ok hex
    obtain ⟨hval, -, -⟩ := convertMealRow_ok hconv
    exact ⟨e, he, s, hs, by rw [hval]; exact hq⟩
  · intro sec rows hf hlk i r hr
    have hlk' : (some (TableVal.tsval dst) : Option TableVal) =
        some (.tsval rows) := hlk
    injection hlk' with h1
    injection h1 with h2
    subst h2
    have hdst' : (if st.isEmpty then Except.ok [] else
        exceptMap convertTsValRow st) = .ok dst := hdst
    obtain ⟨raw, hraw, hconv⟩ := convertShape_get? hdst' i r hr
    rw [extractTsValData_of_find hf] at hst
    obtain ⟨e, he, hex⟩ := exceptMap_ok_get? hst i raw hraw
    obtain ⟨-, s, hs, hq⟩ := extractTsValRow_ok hex
    obtain ⟨hval, -⟩ := convertTsValRow_ok hconv
    exact ⟨e, he, s, hs, by rw [hval]; exact hq⟩
  · intro root' cname fld sec e s hmem hf he hs hp
    apply load_error_exists
    intro m' hm'
    obtain ⟨g', b', t', bo', me', st', dg', db', dt', dbo', dme', dst',
      hg', hb', ht', hbo', hme', hst', -, -, -, -, -, -, -⟩ :=
      load_ok_decomp hm'
    simp only [numericSchema, List.mem_cons, List.not_mem_nil, or_false,
      Prod.mk.injEq] at hmem
    rcases hmem with hmm | hmm | hmm | hmm | hmm | hmm | hmm
    all_goals obtain ⟨rfl, rfl⟩ := hmm
    · rw [extractTsValData_of_find hf] at hg'
      refine exceptMap_not_ok he ?_ g' hg'
      intro y hy
      obtain ⟨-, s', hs', hq'⟩ := extractTsValRow_ok hy
      rw [hs] at hs'
      injection hs' with hss
      subst hss
      rw [hp] at hq'
      exact Option.noConfusion hq'
    · rw [extractTsValData_of_find hf] at hb'
      refine exceptMap_not_ok he ?_ b' hb'
      intro y hy
      obtain ⟨-, s', hs', hq'⟩ := extractTsValRow_ok hy
      rw [hs] at hs'
      injection hs' with hss
      subst hss
      rw [hp] at hq'
      exact Option.noConfusion hq'
    · rw [extractTempBasalData_of_find hf] at ht'
      refine exceptMap_not_ok he ?_ t' ht'
      intro y hy
      obtain ⟨-, -, s', hs', hq'⟩ := extractTempBasalRow_ok hy
      rw [hs] at hs'
      injection hs' with hss
      subst hss
      rw [hp] at hq'
      exact Option.noConfusion hq'
    · rw [extractBolusData_of_find hf] at hbo'
      refine exceptMap_not_ok he ?_ bo' hbo'
      intro y hy
      obtain ⟨-, -, -, ⟨s', hs', hq'⟩, -⟩ := extractBolusRow_ok hy
      rw [hs] at hs'
      injection hs' with hss
      subst hss
      rw [hp] at hq'
      exact Option.noConfusion hq'
    · rw [extractBolusData_of_find hf] at hbo'
      refine exceptMap_not_ok he ?_ bo' hbo'
      intro y hy
      obtain ⟨-, -, -, -, s', hs', hq'⟩ := extractBolusRow_ok hy
      rw [hs] at hs'
      injection hs' with hss
      subst hss
      rw [hp] at hq'
      exact Option.noConfusion hq'
    · rw [extractMealData_of_find hf] at hme'
      refine exceptMap_not_ok he ?_ me' hme'
      intro y hy
      obtain ⟨-, -, s', hs', hq'⟩ := extractMealRow_ok hy
      rw [hs] at hs'
      injection hs' with hss
      subst hss
      rw [hp] at hq'
      exact Option.noConfusion hq'
    · rw [extractTsValData_of_find hf] at hst'
      refine exceptMap_not_ok he ?_ st' hst'
      intro y hy
      obtain ⟨-, s', hs', hq'⟩ := extractTsValRow_ok hy
      rw [hs] at hs'
      injection hs' with hss
      subst hss
      rw [hp] at hq'
      exact Option.noConfusion hq'

theorem C9_numeric_coercion_witness :
    pyFloat "150.0" = some 150 ∧ pyFloat "5" = some 5 ∧
      pyFloat "abc" = none :=
  (C9_numeric_coercion glucoseRoot glucoseOut (by decide)).1

/-- C10 (implicit behavior): a missing non-numeric attribute does not raise
at extraction time — the row is built with a null in that field — and a null
timestamp cell passes the datetime-conversion step as a null chronological
value (`NaT`) instead of aborting; end to end, a glucose event with a value
but no `ts` loads successfully into a row with a null timestamp. -/
theorem C10_nonnumeric_null (e : XmlEvent) :
    (∀ (s : String) (q : ℚ), e.get "value" = some s → pyFloat s = some q →
      extractTsValRow e = .ok ⟨e.get "ts", q⟩) ∧
    (∀ (s : String) (q : ℚ), e.get "value" = some s → pyFloat s = some q →
      extractTempBasalRow e = .ok ⟨e.get "ts_begin", e.get "ts_end", q⟩) ∧
    (∀ (s1 s2 : String) (d c : ℚ), e.get "dose" = some s1 →
      pyFloat s1 = some d → e.get "bwz_carb_input" = some s2 →
      pyFloat s2 = some c →
      extractBolusRow e =
        .ok ⟨e.get "ts_begin", e.get "ts_end", e.get "type", d, c⟩) ∧
    (∀ (s : String) (q : ℚ), e.get "carbs" = some s → pyFloat s = some q →
      extractMealRow e = .ok ⟨e.get "ts", e.get "type", q⟩) ∧
    convertTs none = .ok none ∧
    noTsEvent.get "ts" = none ∧ load noTsRoot = .ok noTsOut := by
  refine ⟨?_, ?_, ?_, ?_, rfl, by decide, by decide⟩
  · intro s q hv hq
    unfold extractTsValRow
    rw [pyFloatAttr_some hv hq]
    rfl
  · intro s q hv hq
    unfold extractTempBasalRow
    rw [pyFloatAttr_some hv hq]
    rfl
  · intro s1 s2 d c hv1 hq1 hv2 hq2
    unfold extractBolusRow
    rw [pyFloatAttr_some hv1 hq1, pyFloatAttr_some hv2 hq2]
    rfl
  · intro s q hv hq
    unfold extractMealRow
    rw [pyFloatAttr_some hv hq]
    rfl

theorem C10_nonnumeric_null_witness :
    extractTsValRow noTsEvent = .ok ⟨noTsEvent.get "ts", 120⟩ :=
  (C10_nonnumeric_null noTsEvent).1 "120.0" 120 (by decide) (by decide)
